/-
Verification of the position-lifecycle monitor of DhanAlgoWeb.

This file gives a shallow embedding, in Lean 4, of the trading-engine core
of the repository (src/trading_engine.py together with the /trade route of
src/app.py) and proves the stated properties of the specification against
it.

Modelling conventions:
  * Python floats are modelled as rationals (ℚ); all arithmetic in the
    monitored code is exact decimal arithmetic on prices, so ℚ is faithful.
  * A position (a `dict` in the source) is the structure `Trade`, with the
    same field names.  `direction`, `status` and `mode` are strings in the
    source and remain strings here, so the BUY-versus-else branching of the
    source is preserved literally.
  * The per-cycle body of `TradingEngine.run_loop` for one position
    (lines 190-219 of src/trading_engine.py) is the function
    `monitor_step`; side effects (Telegram notifications, the
    `save_trades` flush) are made explicit as an emitted `Event` list, and
    deletion of the position from the store is returning `none`.
  * `TradingEngine.get_latest_price` is `get_latest_price` over an
    abstract record of the broker-API responses; every failure path of the
    source returns the sentinel 0, exactly as the Python returns 0.0.
  * `TradingEngine.place_trade` and the `/trade` route validation of
    src/app.py are `place_trade` and `trade_route`.
-/
import Mathlib

namespace DhanAlgo

/-- The five target levels, the `targets` dict `T1` .. `T5` of the source. -/
structure Targets where
  T1 : ℚ
  T2 : ℚ
  T3 : ℚ
  T4 : ℚ
  T5 : ℚ
deriving DecidableEq

/-- The target levels in label order T1, T2, T3, T4, T5. -/
def Targets.toList (ts : Targets) : List ℚ :=
  [ts.T1, ts.T2, ts.T3, ts.T4, ts.T5]

/-- A position record: the dict stored in `active_trades`
(src/trading_engine.py lines 154-159), with the same field names. -/
structure Trade where
  id : String
  symbol : String
  sec_id : String
  direction : String
  qty : ℤ
  entry_price : ℚ
  sl_price : ℚ
  targets : Targets
  channel : String
  mode : String
  max_price : ℚ
  t1_hit : Bool
  status : String
deriving DecidableEq

/-- Observable side effects of the engine, in emission order:
`update` is `notify_update` (the target-1-hit message), `exitNotify` is
`notify_exit` (carrying the position snapshot, the reason and the exit
price), `addNotify` is `notify_add`, `activeNotify` is `notify_active`,
and `save` is the `save_trades` flush of the store to disk. -/
inductive Event where
  | update (channel symbol msg : String)
  | exitNotify (snapshot : Trade) (reason : String) (price : ℚ)
  | addNotify (channel symbol direction mode : String)
  | activeNotify (channel : String) (snapshot : Trade)
  | save
deriving DecidableEq

/-- The multiplier list `[0.5, 1.0, 1.5, 2.0, 3.0]` of
`calculate_targets` (src/trading_engine.py line 122). -/
def multipliers : List ℚ := [1/2, 1, 3/2, 2, 3]

/-- Shallow embedding of `TradingEngine.calculate_targets`
(src/trading_engine.py lines 119-126): `factor` is 1 when the direction
string equals "BUY" and -1 otherwise; the loop over `multipliers` that
fills the dict keys T1..T5 is unrolled into the five fields. -/
def calculate_targets (entry sl_points : ℚ) (direction : String) : ℚ × Targets :=
  let factor : ℚ := if direction = "BUY" then 1 else -1
  (entry - sl_points * factor,
    { T1 := entry + sl_points * (1/2) * factor
      T2 := entry + sl_points * 1 * factor
      T3 := entry + sl_points * (3/2) * factor
      T4 := entry + sl_points * 2 * factor
      T5 := entry + sl_points * 3 * factor })

/-- Lines 196-199 of src/trading_engine.py: raise `max_price` to the
current price for a BUY, lower it for anything else (the source tests
`direction == "BUY"` and treats every other direction as SELL). -/
def max_update (ltp : ℚ) (t : Trade) : Trade :=
  if t.direction = "BUY" then
    if t.max_price < ltp then { t with max_price := ltp } else t
  else
    if ltp < t.max_price then { t with max_price := ltp } else t

/-- The target-1 condition of line 203: the flag is still down and the
price has reached or passed T1 in the favorable direction. -/
def t1_cond (ltp : ℚ) (t : Trade) : Prop :=
  t.t1_hit = false ∧
    ((t.direction = "BUY" ∧ t.targets.T1 ≤ ltp) ∨
     (t.direction = "SELL" ∧ ltp ≤ t.targets.T1))

instance (ltp : ℚ) (t : Trade) : Decidable (t1_cond ltp t) :=
  inferInstanceAs (Decidable (t.t1_hit = false ∧
    ((t.direction = "BUY" ∧ t.targets.T1 ≤ ltp) ∨
     (t.direction = "SELL" ∧ ltp ≤ t.targets.T1))))

/-- Lines 201-206 of src/trading_engine.py: on the first favorable T1
crossing, set the flag, promote the stop loss to the entry price and emit
the notify_update event with the literal message of the source. -/
def t1_update (ltp : ℚ) (t : Trade) : Trade × List Event :=
  if t1_cond ltp t then
    ({ t with t1_hit := true, sl_price := t.entry_price },
     [Event.update t.channel t.symbol "Target 1 Hit! SL Moved to Cost."])
  else (t, [])

/-- Lines 208-214 of src/trading_engine.py: the exit-reason choice.  For a
BUY, `ltp <= sl_price` gives "SL Hit" and otherwise (elif)
`ltp >= targets.T5` gives "Target 5 Hit"; for anything else the two
inequalities invert.  `none` means no exit this cycle. -/
def exit_check (ltp : ℚ) (t : Trade) : Option String :=
  if t.direction = "BUY" then
    if ltp ≤ t.sl_price then some "SL Hit"
    else if t.targets.T5 ≤ ltp then some "Target 5 Hit"
    else none
  else
    if t.sl_price ≤ ltp then some "SL Hit"
    else if ltp ≤ t.targets.T5 then some "Target 5 Hit"
    else none

/-- The body of one monitor cycle for one position at effective price
`ltp` (lines 196-219 of src/trading_engine.py, after the fallback of line
194 has been applied): update the excursion, run the target-1 check, then
the exit check; on exit, emit notify_exit with the mutated snapshot, the
reason and the price, then delete the position (result `none`) and flush
(`Event.save`). -/
def eval_trade (ltp : ℚ) (t : Trade) : Option Trade × List Event :=
  match exit_check ltp (t1_update ltp (max_update ltp t)).1 with
  | some r =>
    (none, (t1_update ltp (max_update ltp t)).2 ++
      [Event.exitNotify (t1_update ltp (max_update ltp t)).1 r ltp, Event.save])
  | none =>
    (some (t1_update ltp (max_update ltp t)).1,
      (t1_update ltp (max_update ltp t)).2)

/-- One monitor cycle for one position given the value `fetched` returned
by `get_latest_price` (lines 190-219 of src/trading_engine.py): positions
whose status is not "ACTIVE" are skipped (line 191); a zero fetch result
is replaced by the entry price (line 194). -/
def monitor_step (fetched : ℚ) (t : Trade) : Option Trade × List Event :=
  if t.status = "ACTIVE" then
    eval_trade (if fetched = 0 then t.entry_price else fetched) t
  else (some t, [])

/-- Lift of `monitor_step` to an optional position: `none` stands for an
identifier deleted from `active_trades`, which the loop never revisits. -/
def step_opt (fetched : ℚ) : Option Trade → Option Trade × List Event
  | none => (none, [])
  | some t => monitor_step fetched t

/-- Run the monitor over a list of per-cycle fetch results, concatenating
the emitted events in order. -/
def run_cycles : List ℚ → Option Trade → Option Trade × List Event
  | [], s => (s, [])
  | f :: rest, s =>
    let p := step_opt f s
    let q := run_cycles rest p.1
    (q.1, p.2 ++ q.2)

/-- The BUY scenario of the specification: entry 100, risk 20, so stop
loss 80 and targets 110/120/130/140/160. -/
def sampleBuy : Trade :=
  { id := "NIFTY_1", symbol := "NIFTY", sec_id := "13", direction := "BUY",
    qty := 50, entry_price := 100, sl_price := 80,
    targets := { T1 := 110, T2 := 120, T3 := 130, T4 := 140, T5 := 160 },
    channel := "VIP Channel", mode := "PAPER", max_price := 100,
    t1_hit := false, status := "ACTIVE" }

/-- `sampleBuy` after its target-1 promotion: flag up, stop loss at the
entry price, excursion 115. -/
def sampleBuyHit : Trade :=
  { sampleBuy with t1_hit := true, sl_price := 100, max_price := 115 }

/-- The effective price of a cycle: line 194 substitutes the entry price
when the fetch returned the failure sentinel 0. -/
def effective_price (fetched : ℚ) (t : Trade) : ℚ :=
  if fetched = 0 then t.entry_price else fetched

/-- The position state at the moment of the exit check of lines 208-214:
after the excursion update and the possible target-1 promotion of the
same cycle. -/
def pre_exit_state (ltp : ℚ) (t : Trade) : Trade :=
  (t1_update ltp (max_update ltp t)).1

/-- The events emitted before the exit check (the possible target-1
notification). -/
def pre_exit_events (ltp : ℚ) (t : Trade) : List Event :=
  (t1_update ltp (max_update ltp t)).2

/-- One item of a ticker_data response: its last_price field. -/
structure TickerItem where
  last_price : ℚ
deriving DecidableEq

/-- One item of an ohlc_data response: last_price and the ohlc close. -/
structure OhlcItem where
  last_price : ℚ
  close : ℚ
deriving DecidableEq

/-- Abstraction of one call's broker-API behaviour as seen by
`get_latest_price` (src/trading_engine.py lines 54-109): the engine's
connection state, whether int(security_id) parses, whether the SDK
raised during the call, and the two response payloads with their
success-status flags. -/
structure PriceApi where
  connected : Bool
  id_valid : Bool
  raises : Bool
  ticker_status : Bool
  ticker_data : List TickerItem
  ohlc_status : Bool
  ohlc_data : List OhlcItem
deriving DecidableEq

/-- The ticker loop of lines 80-82: return the first strictly positive
last_price, if any. -/
def first_ticker_price : List TickerItem → Option ℚ
  | [] => none
  | item :: rest =>
    if 0 < item.last_price then some item.last_price
    else first_ticker_price rest

/-- The OHLC loop of lines 90-95: per item, a strictly positive
last_price wins, else a strictly positive ohlc close, else the next
item. -/
def first_ohlc_price : List OhlcItem → Option ℚ
  | [] => none
  | item :: rest =>
    if 0 < item.last_price then some item.last_price
    else if 0 < item.close then some item.close
    else first_ohlc_price rest

/-- Shallow embedding of `TradingEngine.get_latest_price`: every failure
path of the source — not connected (line 61), an unparseable id
(lines 68-72), an SDK exception (lines 105-107), or no positive price in
either response — returns the sentinel 0.0 (line 109); a successful
lookup returns the first price found, ticker data first, OHLC data as
fallback. -/
def get_latest_price (api : PriceApi) : ℚ :=
  if api.connected = false then 0
  else if api.id_valid = false then 0
  else if api.raises = true then 0
  else
    match (if api.ticker_status then first_ticker_price api.ticker_data
           else none) with
    | some p => p
    | none =>
      match (if api.ohlc_status then first_ohlc_price api.ohlc_data
             else none) with
      | some p => p
      | none => 0

/-- An API state in which the fetch yields nothing. -/
def apiDown : PriceApi :=
  { connected := false, id_valid := true, raises := false,
    ticker_status := false, ticker_data := [],
    ohlc_status := false, ohlc_data := [] }

/-- Entry resolution of src/trading_engine.py lines 132-135: the FNO
price, else the EQ price, else the hardcoded 100.0, where 0 marks a
failed fetch. -/
def resolve_entry_price (fno_price eq_price : ℚ) : ℚ :=
  if fno_price = 0 then (if eq_price = 0 then 100 else eq_price) else fno_price

/-- Result of a creation request: the flashed message, the created
position (if any), and the emitted side effects in order. -/
structure PlaceResult where
  msg : String
  created : Option Trade
  events : List Event
deriving DecidableEq

/-- Shallow embedding of `TradingEngine.place_trade`
(src/trading_engine.py lines 128-165).  In LIVE mode with a connected
API an order-placement exception returns the API-error message and
creates nothing (line 149); otherwise the record of lines 154-159 is
created with status ACTIVE, the store is flushed, and the add/active
notifications are emitted.  The channel argument stands for the resolved
target_channel of line 129 and trade_id for the symbol-plus-timestamp
identifier of line 153; no validation of sl_points or qty happens here. -/
def place_trade (connected order_raises : Bool)
    (symbol sec_id direction : String) (qty : ℤ) (channel : String)
    (sl_points : ℚ) (mode : String) (fno_price eq_price : ℚ)
    (trade_id : String) : PlaceResult :=
  if mode = "LIVE" ∧ connected = true ∧ order_raises = true then
    { msg := "API Error", created := none, events := [] }
  else
    let entry := resolve_entry_price fno_price eq_price
    let t : Trade :=
      { id := trade_id, symbol := symbol, sec_id := sec_id,
        direction := direction, qty := qty, entry_price := entry,
        sl_price := (calculate_targets entry sl_points direction).1,
        targets := (calculate_targets entry sl_points direction).2,
        channel := channel, mode := mode, max_price := entry,
        t1_hit := false, status := "ACTIVE" }
    { msg := "Trade Executed Successfully", created := some t,
      events := [Event.save, Event.addNotify channel symbol direction mode,
        Event.activeNotify channel t] }

/-- The parsed form fields of the /trade route (src/app.py lines 74-86):
`none` for qty/sl stands for a ValueError in int()/float(), which the
route maps to qty 0 and sl 0; sec_id `none` stands for a missing form
field. -/
structure TradeForm where
  sec_id : Option String
  symbol : String
  direction : String
  channel : String
  qty_field : Option ℤ
  sl_field : Option ℚ
deriving DecidableEq

/-- Lines 80-85 of src/app.py: one try block around both conversions, so
a failure of either leaves qty = 0 and sl = 0. -/
def form_qty_sl (fm : TradeForm) : ℤ × ℚ :=
  match fm.qty_field, fm.sl_field with
  | some q, some s => (q, s)
  | _, _ => (0, 0)

/-- Python truthiness of the security-id form value as used in the
validation of line 90. -/
def sec_id_truthy : Option String → Bool
  | none => false
  | some s => if s = "" then false else true

/-- Shallow embedding of the /trade route of src/app.py lines 71-96:
the only validation is `qty > 0 and sec_id`; an accepted request is
forwarded to `place_trade`, a rejected one flashes the error message and
touches nothing. -/
def trade_route (connected order_raises : Bool) (mode : String)
    (fm : TradeForm) (fno_price eq_price : ℚ) (trade_id : String) :
    PlaceResult :=
  if 0 < (form_qty_sl fm).1 ∧ sec_id_truthy fm.sec_id = true then
    place_trade connected order_raises fm.symbol (fm.sec_id.getD "")
      fm.direction (form_qty_sl fm).1 fm.channel (form_qty_sl fm).2 mode
      fno_price eq_price trade_id
  else
    { msg := "❌ Error: Invalid Option/Symbol or Quantity.", created := none,
      events := [] }

/-- The /trade request of the C8 counterexample: positive quantity and a
security id but risk distance 0. -/
def zeroRiskForm : TradeForm :=
  { sec_id := some "49081", symbol := "NIFTY", direction := "BUY",
    channel := "VIP Channel", qty_field := some 50, sl_field := some 0 }

/-- A /trade request with quantity 0 and a positive risk distance. -/
def zeroQtyForm : TradeForm :=
  { sec_id := some "49081", symbol := "NIFTY", direction := "BUY",
    channel := "VIP Channel", qty_field := some 0, sl_field := some 20 }

/-- `sampleBuy` as mutated in place by the monitor cycle at price 115:
excursion raised, flag up, stop loss promoted. -/
def sampleBuy115 : Trade :=
  { sampleBuy with t1_hit := true, sl_price := 100, max_price := 115 }

/-- C1: for every entry price `e`, risk distance `r > 0` and direction in
BUY/SELL, `calculate_targets` returns the stop loss `e - r * factor` and
the five targets `e + r * m * factor` for the multipliers
0.5, 1.0, 1.5, 2.0, 3.0 in that order, with `factor = 1` for BUY and
`-1` for SELL.  The function is a pure Lean function, hence deterministic. -/
theorem C1_calculate_targets (e r : ℚ) (hr : 0 < r) (d : String)
    (hd : d = "BUY" ∨ d = "SELL") :
    ∃ f : ℚ, ((d = "BUY" → f = 1) ∧ (d = "SELL" → f = -1)) ∧
      (calculate_targets e r d).1 = e - r * f ∧
      (calculate_targets e r d).2.toList =
        multipliers.map (fun m => e + r * m * f) := by
  rcases hd with hd | hd <;> subst hd
  · exact ⟨1, ⟨fun _ => rfl, fun h => by simp at h⟩, by
      simp [calculate_targets, Targets.toList, multipliers]⟩
  · exact ⟨-1, ⟨fun h => by simp at h, fun _ => rfl⟩, by
      simp [calculate_targets, Targets.toList, multipliers]⟩

/-- Witness for C1 at the scenario of the specification: entry 100,
risk 20, direction BUY, factor 1. -/
theorem C1_calculate_targets_witness :
    (calculate_targets 100 20 "BUY").1 = 100 - 20 * 1 ∧
    (calculate_targets 100 20 "BUY").2.toList =
      multipliers.map (fun m => 100 + 20 * m * 1) := by
  obtain ⟨f, hf, h1, h2⟩ :=
    C1_calculate_targets 100 20 (by decide) "BUY" (Or.inl rfl)
  rw [hf.1 rfl] at h1 h2
  exact ⟨h1, h2⟩

/-- Field facts about the combined max-update and T1-update of one cycle:
immutable fields are untouched, the flag never goes back down, the stop
loss changes only by promotion to the entry price, and the excursion
moves as the source writes it. -/
theorem t1_max_fields (ltp : ℚ) (t : Trade) :
    ((t1_update ltp (max_update ltp t)).1.direction = t.direction) ∧
    ((t1_update ltp (max_update ltp t)).1.entry_price = t.entry_price) ∧
    ((t1_update ltp (max_update ltp t)).1.targets = t.targets) ∧
    ((t1_update ltp (max_update ltp t)).1.status = t.status) ∧
    (t.t1_hit = true → (t1_update ltp (max_update ltp t)).1.t1_hit = true ∧
      (t1_update ltp (max_update ltp t)).1.sl_price = t.sl_price) ∧
    ((t1_update ltp (max_update ltp t)).1.sl_price = t.entry_price ∨
      (t1_update ltp (max_update ltp t)).1.sl_price = t.sl_price) ∧
    (t.direction = "BUY" →
      (t1_update ltp (max_update ltp t)).1.max_price = max ltp t.max_price) ∧
    (t.direction ≠ "BUY" →
      (t1_update ltp (max_update ltp t)).1.max_price = min ltp t.max_price) := by
  unfold t1_update max_update
  split_ifs <;> simp_all [t1_cond] <;> linarith

/-- The state equation of one cycle that ends with the position still in
the store: either the position was active and the survivor is exactly the
max-plus-T1 updated record, or it was inactive and is untouched. -/
theorem monitor_step_some (f : ℚ) (t u : Trade) (evs : List Event)
    (h : monitor_step f t = (some u, evs)) :
    (t.status = "ACTIVE" ∧
      u = (t1_update (if f = 0 then t.entry_price else f)
            (max_update (if f = 0 then t.entry_price else f) t)).1 ∧
      evs = (t1_update (if f = 0 then t.entry_price else f)
            (max_update (if f = 0 then t.entry_price else f) t)).2) ∨
    (t.status ≠ "ACTIVE" ∧ u = t ∧ evs = []) := by
  unfold monitor_step at h
  by_cases hst : t.status = "ACTIVE"
  · rw [if_pos hst] at h
    left
    refine ⟨hst, ?_⟩
    unfold eval_trade at h
    rcases hex : exit_check (if f = 0 then t.entry_price else f)
        (t1_update (if f = 0 then t.entry_price else f)
          (max_update (if f = 0 then t.entry_price else f) t)).1 with _ | r
    · rw [hex] at h
      simp only [Prod.mk.injEq, Option.some.injEq] at h
      exact ⟨h.1.symm, h.2.symm⟩
    · rw [hex] at h
      simp at h
  · rw [if_neg hst] at h
    right
    simp only [Prod.mk.injEq, Option.some.injEq] at h
    exact ⟨hst, h.1.symm, h.2.symm⟩

@[simp] theorem max_update_direction (ltp : ℚ) (t : Trade) :
    (max_update ltp t).direction = t.direction := by
  unfold max_update; split_ifs <;> rfl

@[simp] theorem max_update_entry_price (ltp : ℚ) (t : Trade) :
    (max_update ltp t).entry_price = t.entry_price := by
  unfold max_update; split_ifs <;> rfl

@[simp] theorem max_update_sl_price (ltp : ℚ) (t : Trade) :
    (max_update ltp t).sl_price = t.sl_price := by
  unfold max_update; split_ifs <;> rfl

@[simp] theorem max_update_targets (ltp : ℚ) (t : Trade) :
    (max_update ltp t).targets = t.targets := by
  unfold max_update; split_ifs <;> rfl

@[simp] theorem max_update_t1_hit (ltp : ℚ) (t : Trade) :
    (max_update ltp t).t1_hit = t.t1_hit := by
  unfold max_update; split_ifs <;> rfl

@[simp] theorem max_update_status (ltp : ℚ) (t : Trade) :
    (max_update ltp t).status = t.status := by
  unfold max_update; split_ifs <;> rfl

@[simp] theorem max_update_channel (ltp : ℚ) (t : Trade) :
    (max_update ltp t).channel = t.channel := by
  unfold max_update; split_ifs <;> rfl

@[simp] theorem max_update_symbol (ltp : ℚ) (t : Trade) :
    (max_update ltp t).symbol = t.symbol := by
  unfold max_update; split_ifs <;> rfl

/-- A deleted identifier is never revisited: running any number of cycles
from the removed state stays removed and emits nothing. -/
theorem run_cycles_none (ps : List ℚ) : run_cycles ps none = (none, []) := by
  induction ps with
  | nil => rfl
  | cons f rest ih => simp [run_cycles, step_opt, ih]

theorem run_cycles_cons_fst (f : ℚ) (rest : List ℚ) (s : Option Trade) :
    (run_cycles (f :: rest) s).1 = (run_cycles rest (step_opt f s).1).1 := rfl

/-- Per-cycle field facts for a surviving position: identity fields are
untouched, a raised T1 flag stays raised with the stop loss unchanged,
and the excursion moves only in the favorable direction. -/
theorem monitor_step_fields (f : ℚ) (t u : Trade) (evs : List Event)
    (h : monitor_step f t = (some u, evs)) :
    u.direction = t.direction ∧ u.entry_price = t.entry_price ∧
      u.targets = t.targets ∧ u.status = t.status ∧
      (t.t1_hit = true → u.t1_hit = true ∧ u.sl_price = t.sl_price) ∧
      (t.direction = "BUY" → t.max_price ≤ u.max_price) ∧
      (t.direction ≠ "BUY" → u.max_price ≤ t.max_price) := by
  rcases monitor_step_some f t u evs h with ⟨hst, hu, hev⟩ | ⟨hst, hu, hev⟩
  · subst hu
    have hfm := t1_max_fields (if f = 0 then t.entry_price else f) t
    refine ⟨hfm.1, hfm.2.1, hfm.2.2.1, hfm.2.2.2.1, hfm.2.2.2.2.1, ?_, ?_⟩
    · intro hb
      rw [hfm.2.2.2.2.2.2.1 hb]
      exact le_max_right _ _
    · intro hb
      rw [hfm.2.2.2.2.2.2.2 hb]
      exact min_le_right _ _
  · subst hu
    exact ⟨rfl, rfl, rfl, rfl, fun h1 => ⟨h1, rfl⟩,
      fun _ => le_refl _, fun _ => le_refl _⟩

/-- Multi-cycle version of `monitor_step_fields`, by induction over the
list of per-cycle fetch results. -/
theorem run_cycles_fields (ps : List ℚ) (t u : Trade)
    (h : (run_cycles ps (some t)).1 = some u) :
    u.direction = t.direction ∧ u.entry_price = t.entry_price ∧
      u.targets = t.targets ∧ u.status = t.status ∧
      (t.t1_hit = true → u.t1_hit = true ∧ u.sl_price = t.sl_price) ∧
      (t.direction = "BUY" → t.max_price ≤ u.max_price) ∧
      (t.direction ≠ "BUY" → u.max_price ≤ t.max_price) := by
  induction ps generalizing t with
  | nil =>
    simp only [run_cycles, Option.some.injEq] at h
    subst h
    exact ⟨rfl, rfl, rfl, rfl, fun h1 => ⟨h1, rfl⟩,
      fun _ => le_refl _, fun _ => le_refl _⟩
  | cons f rest ih =>
    rw [run_cycles_cons_fst] at h
    rcases hm : monitor_step f t with ⟨s1, e1⟩
    cases s1 with
    | none =>
      rw [show step_opt f (some t) = (none, e1) from hm,
        run_cycles_none] at h
      exact absurd h (by simp)
    | some v =>
      rw [show step_opt f (some t) = (some v, e1) from hm] at h
      have hv := monitor_step_fields f t v e1 hm
      have hu := ih v h
      refine ⟨hu.1.trans hv.1, hu.2.1.trans hv.2.1, hu.2.2.1.trans hv.2.2.1,
        hu.2.2.2.1.trans hv.2.2.2.1, ?_, ?_, ?_⟩
      · intro h1
        have hv1 := hv.2.2.2.2.1 h1
        have hu1 := hu.2.2.2.2.1 hv1.1
        exact ⟨hu1.1, hu1.2.trans hv1.2⟩
      · intro hb
        exact le_trans (hv.2.2.2.2.2.1 hb) (hu.2.2.2.2.2.1 (hv.1.trans hb))
      · intro hb
        exact le_trans (hu.2.2.2.2.2.2 fun hq => hb (hv.1.symm.trans hq))
          (hv.2.2.2.2.2.2 hb)

/-- The literal levels of `sampleBuy` agree with `calculate_targets` on
entry 100, risk 20, direction BUY. -/
theorem sampleBuy_matches_calc :
    (calculate_targets 100 20 "BUY").1 = sampleBuy.sl_price ∧
      (calculate_targets 100 20 "BUY").2 = sampleBuy.targets := by
  constructor
  · norm_num [calculate_targets, sampleBuy]
  · simp only [calculate_targets, sampleBuy, Targets.mk.injEq]
    norm_num

/-- C2: the target-1 check fires at most once.  Over any sequence of
cycles in which the position survives, a raised `t1_hit` flag stays
raised, and once the stop loss sits at the entry price it stays there for
the rest of the position's life; and on the cycle in which the flag
flips, the stop loss is set to the entry price and the target-1-hit
notification (the notify_update of line 206) is emitted. -/
theorem C2_target1_latch (ps : List ℚ) (t u : Trade)
    (h : (run_cycles ps (some t)).1 = some u) :
    (t.t1_hit = true → u.t1_hit = true) ∧
    (t.t1_hit = true → t.sl_price = t.entry_price →
      u.sl_price = u.entry_price) ∧
    (∀ f v evs, monitor_step f t = (some v, evs) → t.t1_hit = false →
      v.t1_hit = true →
        v.sl_price = v.entry_price ∧
        Event.update t.channel t.symbol
          "Target 1 Hit! SL Moved to Cost." ∈ evs) := by
  have hf := run_cycles_fields ps t u h
  refine ⟨fun h1 => (hf.2.2.2.2.1 h1).1, fun h1 h2 => ?_, ?_⟩
  · rw [(hf.2.2.2.2.1 h1).2, h2, hf.2.1]
  · intro f v evs hm h0 h1
    rcases monitor_step_some f t v evs hm with ⟨hst, hv, hev⟩ | ⟨hst, hv, hev⟩
    · by_cases hc : t1_cond (if f = 0 then t.entry_price else f)
          (max_update (if f = 0 then t.entry_price else f) t)
      · constructor
        · rw [hv]
          simp [t1_update, if_pos hc]
        · rw [hev]
          simp [t1_update, if_pos hc]
      · exfalso
        rw [hv] at h1
        simp only [t1_update, if_neg hc, max_update_t1_hit] at h1
        rw [h0] at h1
        exact Bool.noConfusion h1
    · exfalso
      rw [hv] at h1
      rw [h0] at h1
      exact Bool.noConfusion h1

/-- Witness for C2 on the promoted sample position over two quiet
cycles: the flag stays up and the stop loss stays at the entry price. -/
theorem C2_target1_latch_witness :
    sampleBuyHit.t1_hit = true ∧
    sampleBuyHit.sl_price = sampleBuyHit.entry_price := by
  have h := C2_target1_latch [105, 115] sampleBuyHit sampleBuyHit (by decide)
  exact ⟨h.1 rfl, h.2.1 rfl rfl⟩

/-- C5: each surviving cycle updates the excursion to
`max(price, previous)` for a BUY and `min(price, previous)` for a SELL
(at the effective price after the zero-fetch fallback), and therefore the
excursion is monotonically non-decreasing (BUY) respectively
non-increasing (SELL) across any sequence of cycles. -/
theorem C5_max_excursion (t : Trade) :
    (∀ f u evs, t.status = "ACTIVE" → monitor_step f t = (some u, evs) →
      (t.direction = "BUY" →
        u.max_price = max (if f = 0 then t.entry_price else f) t.max_price) ∧
      (t.direction = "SELL" →
        u.max_price = min (if f = 0 then t.entry_price else f) t.max_price)) ∧
    (∀ ps u, (run_cycles ps (some t)).1 = some u →
      (t.direction = "BUY" → t.max_price ≤ u.max_price) ∧
      (t.direction = "SELL" → u.max_price ≤ t.max_price)) := by
  constructor
  · intro f u evs hst hm
    rcases monitor_step_some f t u evs hm with ⟨_, hu, _⟩ | ⟨hne, _, _⟩
    · subst hu
      have hfm := t1_max_fields (if f = 0 then t.entry_price else f) t
      exact ⟨hfm.2.2.2.2.2.2.1,
        fun hs => hfm.2.2.2.2.2.2.2 (by rw [hs]; decide)⟩
    · exact absurd hst hne
  · intro ps u h
    have hf := run_cycles_fields ps t u h
    exact ⟨hf.2.2.2.2.2.1, fun hs => hf.2.2.2.2.2.2 (by rw [hs]; decide)⟩

/-- Witness for C5: a fetch of 105 against the sample BUY raises the
excursion from 100 to max(105, 100). -/
theorem C5_max_excursion_witness :
    ({ sampleBuy with max_price := 105 } : Trade).max_price =
      max (if (105 : ℚ) = 0 then sampleBuy.entry_price else 105)
        sampleBuy.max_price :=
  ((C5_max_excursion sampleBuy).1 105 { sampleBuy with max_price := 105 } []
    rfl (by decide)).1 rfl

@[simp] theorem t1_update_direction (ltp : ℚ) (t : Trade) :
    (t1_update ltp t).1.direction = t.direction := by
  unfold t1_update; split_ifs <;> rfl

@[simp] theorem t1_update_entry_price (ltp : ℚ) (t : Trade) :
    (t1_update ltp t).1.entry_price = t.entry_price := by
  unfold t1_update; split_ifs <;> rfl

@[simp] theorem t1_update_targets (ltp : ℚ) (t : Trade) :
    (t1_update ltp t).1.targets = t.targets := by
  unfold t1_update; split_ifs <;> rfl

@[simp] theorem t1_update_status (ltp : ℚ) (t : Trade) :
    (t1_update ltp t).1.status = t.status := by
  unfold t1_update; split_ifs <;> rfl

@[simp] theorem t1_update_max_price (ltp : ℚ) (t : Trade) :
    (t1_update ltp t).1.max_price = t.max_price := by
  unfold t1_update; split_ifs <;> rfl

theorem exit_check_buy (ltp : ℚ) (u : Trade) (hb : u.direction = "BUY") :
    exit_check ltp u =
      (if ltp ≤ u.sl_price then some "SL Hit"
       else if u.targets.T5 ≤ ltp then some "Target 5 Hit" else none) := by
  unfold exit_check; rw [if_pos hb]

theorem exit_check_other (ltp : ℚ) (u : Trade) (hb : u.direction ≠ "BUY") :
    exit_check ltp u =
      (if u.sl_price ≤ ltp then some "SL Hit"
       else if ltp ≤ u.targets.T5 then some "Target 5 Hit" else none) := by
  unfold exit_check; rw [if_neg hb]

/-- C4: in a cycle at fetch result `f`, an ACTIVE position is deleted
from the store exactly when the exit condition of lines 208-214 holds at
the cycle's effective price against the cycle's evolved state; on that
cycle the events end with the closed notification (carrying the reason
and the exit price) followed by the flush, the notification preceding the
deletion; and a deleted identifier is absorbing: running any number of
further cycles from the removed state stays removed and emits nothing,
so removal happens exactly once, on the first cycle whose exit condition
is true. -/
theorem C4_removal_once (f : ℚ) (t : Trade) (ht : t.status = "ACTIVE") :
    ((monitor_step f t).1 = none ↔
      exit_check (effective_price f t)
        (pre_exit_state (effective_price f t) t) ≠ none) ∧
    (∀ r, exit_check (effective_price f t)
        (pre_exit_state (effective_price f t) t) = some r →
      (monitor_step f t).2 =
        pre_exit_events (effective_price f t) t ++
          [Event.exitNotify (pre_exit_state (effective_price f t) t) r
            (effective_price f t), Event.save]) ∧
    (∀ ps, run_cycles ps none = (none, [])) := by
  unfold monitor_step
  rw [if_pos ht]
  unfold eval_trade effective_price pre_exit_state pre_exit_events
  refine ⟨?_, ?_, fun ps => run_cycles_none ps⟩
  · rcases hex : exit_check (if f = 0 then t.entry_price else f)
        (t1_update (if f = 0 then t.entry_price else f)
          (max_update (if f = 0 then t.entry_price else f) t)).1 with _ | r <;>
      simp [hex]
  · intro r hex
    simp [hex]

/-- Witness for C4: a fetch of 79 against the promoted sample BUY
position (stop loss at 100) deletes the position and emits the closed
notification followed by the flush. -/
theorem C4_removal_once_witness :
    (monitor_step 79 sampleBuyHit).1 = none ∧
    (monitor_step 79 sampleBuyHit).2 =
      pre_exit_events (effective_price 79 sampleBuyHit) sampleBuyHit ++
        [Event.exitNotify
          (pre_exit_state (effective_price 79 sampleBuyHit) sampleBuyHit)
          "SL Hit" (effective_price 79 sampleBuyHit), Event.save] :=
  ⟨((C4_removal_once 79 sampleBuyHit rfl).1).mpr (by decide),
   (C4_removal_once 79 sampleBuyHit rfl).2.1 "SL Hit" (by decide)⟩

/-- C3: the exit decision of an ACTIVE position, taken against the
cycle's effective price and the stop loss as it stands at the exit check
(after any same-cycle target-1 promotion): for a BUY, price at or below
the stop loss closes with reason "SL Hit" — regardless of whether the
target-5 threshold is also crossed, so the stop loss deterministically
wins a simultaneous breach — otherwise price at or above T5 closes with
reason "Target 5 Hit", otherwise the position stays; for a SELL the
inequalities invert; and whenever a reason is chosen the position is
deleted and the closed notification with that reason is emitted. -/
theorem C3_exit_reason_choice (f : ℚ) (t : Trade) (ht : t.status = "ACTIVE") :
    (t.direction = "BUY" →
      (effective_price f t ≤ (pre_exit_state (effective_price f t) t).sl_price →
        exit_check (effective_price f t)
          (pre_exit_state (effective_price f t) t) = some "SL Hit") ∧
      (¬ effective_price f t ≤ (pre_exit_state (effective_price f t) t).sl_price →
        (pre_exit_state (effective_price f t) t).targets.T5 ≤ effective_price f t →
        exit_check (effective_price f t)
          (pre_exit_state (effective_price f t) t) = some "Target 5 Hit") ∧
      (¬ effective_price f t ≤ (pre_exit_state (effective_price f t) t).sl_price →
        ¬ (pre_exit_state (effective_price f t) t).targets.T5 ≤ effective_price f t →
        exit_check (effective_price f t)
          (pre_exit_state (effective_price f t) t) = none)) ∧
    (t.direction = "SELL" →
      ((pre_exit_state (effective_price f t) t).sl_price ≤ effective_price f t →
        exit_check (effective_price f t)
          (pre_exit_state (effective_price f t) t) = some "SL Hit") ∧
      (¬ (pre_exit_state (effective_price f t) t).sl_price ≤ effective_price f t →
        effective_price f t ≤ (pre_exit_state (effective_price f t) t).targets.T5 →
        exit_check (effective_price f t)
          (pre_exit_state (effective_price f t) t) = some "Target 5 Hit") ∧
      (¬ (pre_exit_state (effective_price f t) t).sl_price ≤ effective_price f t →
        ¬ effective_price f t ≤ (pre_exit_state (effective_price f t) t).targets.T5 →
        exit_check (effective_price f t)
          (pre_exit_state (effective_price f t) t) = none)) ∧
    (∀ r, exit_check (effective_price f t)
        (pre_exit_state (effective_price f t) t) = some r →
      (monitor_step f t).1 = none ∧
        Event.exitNotify (pre_exit_state (effective_price f t) t) r
          (effective_price f t) ∈ (monitor_step f t).2) := by
  have hdir : (pre_exit_state (effective_price f t) t).direction = t.direction := by
    simp [pre_exit_state]
  refine ⟨?_, ?_, ?_⟩
  · intro hb
    rw [exit_check_buy _ _ (hdir.trans hb)]
    refine ⟨fun hsl => ?_, fun hnsl ht5 => ?_, fun hnsl hn5 => ?_⟩
    · rw [if_pos hsl]
    · rw [if_neg hnsl, if_pos ht5]
    · rw [if_neg hnsl, if_neg hn5]
  · intro hs
    have hnb : (pre_exit_state (effective_price f t) t).direction ≠ "BUY" := by
      rw [hdir, hs]; decide
    rw [exit_check_other _ _ hnb]
    refine ⟨fun hsl => ?_, fun hnsl ht5 => ?_, fun hnsl hn5 => ?_⟩
    · rw [if_pos hsl]
    · rw [if_neg hnsl, if_pos ht5]
    · rw [if_neg hnsl, if_neg hn5]
  · intro r hex
    unfold monitor_step
    rw [if_pos ht]
    unfold eval_trade
    unfold effective_price pre_exit_state at hex
    rw [hex]
    constructor
    · rfl
    · unfold effective_price pre_exit_state
      simp

/-- Witness for C3: a fetch of 79 against the fresh sample BUY position
(stop loss 80) selects the stop-loss reason and closes the position. -/
theorem C3_exit_reason_choice_witness :
    exit_check (effective_price 79 sampleBuy)
      (pre_exit_state (effective_price 79 sampleBuy) sampleBuy) =
      some "SL Hit" ∧
    (monitor_step 79 sampleBuy).1 = none := by
  have h := C3_exit_reason_choice 79 sampleBuy rfl
  have hsl := (h.1 rfl).1 (by decide)
  exact ⟨hsl, (h.2.2 "SL Hit" hsl).1⟩

/-- C9: an ACTIVE position whose flag is down and whose entry price lies
strictly between the stop loss and T1 (with T5 beyond T1 and an excursion
at least as favorable as the entry, as creation guarantees) is left
completely unchanged — no excursion move, no flag flip, no stop-loss or
target-5 exit, no event — by any number of consecutive cycles in which
the fetch returns no data (sentinel 0, so the entry price is
substituted). -/
theorem C9_no_data_frame (t : Trade) (n : ℕ) (hst : t.status = "ACTIVE")
    (h1 : t.t1_hit = false)
    (hbuy : t.direction = "BUY" →
      t.sl_price < t.entry_price ∧ t.entry_price < t.targets.T1 ∧
      t.targets.T1 ≤ t.targets.T5 ∧ t.entry_price ≤ t.max_price)
    (hsell : t.direction ≠ "BUY" →
      t.targets.T1 < t.entry_price ∧ t.entry_price < t.sl_price ∧
      t.targets.T5 ≤ t.targets.T1 ∧ t.max_price ≤ t.entry_price) :
    run_cycles (List.replicate n (0 : ℚ)) (some t) = (some t, []) := by
  have hmax : max_update t.entry_price t = t := by
    unfold max_update
    by_cases hb : t.direction = "BUY"
    · rw [if_pos hb, if_neg (not_lt.mpr (hbuy hb).2.2.2)]
    · rw [if_neg hb, if_neg (not_lt.mpr (hsell hb).2.2.2)]
  have hnc : ¬ t1_cond t.entry_price t := by
    unfold t1_cond
    rintro ⟨-, ⟨hb, hle⟩ | ⟨hs, hle⟩⟩
    · exact absurd hle (not_le.mpr (hbuy hb).2.1)
    · exact absurd hle (not_le.mpr (hsell (by rw [hs]; decide)).1)
  have ht1 : t1_update t.entry_price t = (t, []) := by
    unfold t1_update
    rw [if_neg hnc]
  have hex : exit_check t.entry_price t = none := by
    by_cases hb : t.direction = "BUY"
    · rw [exit_check_buy _ _ hb,
        if_neg (not_le.mpr (hbuy hb).1),
        if_neg (not_le.mpr (lt_of_lt_of_le (hbuy hb).2.1 (hbuy hb).2.2.1))]
    · rw [exit_check_other _ _ hb,
        if_neg (not_le.mpr (hsell hb).2.1),
        if_neg (not_le.mpr (lt_of_le_of_lt (hsell hb).2.2.1 (hsell hb).1))]
  have hstep : monitor_step 0 t = (some t, []) := by
    unfold monitor_step
    rw [if_pos hst]
    unfold eval_trade
    norm_num
    rw [hmax, ht1]
    simp [hex]
  induction n with
  | zero => rfl
  | succ k ih =>
    rw [List.replicate_succ]
    rw [show run_cycles ((0 : ℚ) :: List.replicate k (0 : ℚ)) (some t) =
      ((run_cycles (List.replicate k (0 : ℚ))
          (step_opt 0 (some t)).1).1,
        (step_opt 0 (some t)).2 ++
          (run_cycles (List.replicate k (0 : ℚ))
            (step_opt 0 (some t)).1).2) from rfl]
    rw [show step_opt (0 : ℚ) (some t) = monitor_step 0 t from rfl, hstep]
    simp [ih]

/-- Witness for C9: the fresh sample BUY position is untouched by three
consecutive no-data cycles. -/
theorem C9_no_data_frame_witness :
    run_cycles (List.replicate 3 (0 : ℚ)) (some sampleBuy) =
      (some sampleBuy, []) :=
  C9_no_data_frame sampleBuy 3 rfl rfl
    (fun _ => by refine ⟨?_, ?_, ?_, ?_⟩ <;> decide)
    (fun h => absurd rfl h)

/-- C10: once the stop loss has been promoted to the entry price
(target-1 hit), a cycle whose price fetch fails or returns zero closes
the position with reason "SL Hit" at exit price equal to the entry
price: the fallback substitutes the entry price and the stop-loss
comparison holds with equality, for both directions. -/
theorem C10_promoted_fallback_exit (t : Trade) (hst : t.status = "ACTIVE")
    (h1 : t.t1_hit = true) (hsl : t.sl_price = t.entry_price) :
    monitor_step 0 t =
      (none, [Event.exitNotify (max_update t.entry_price t) "SL Hit"
        t.entry_price, Event.save]) := by
  have hnc : ¬ t1_cond t.entry_price (max_update t.entry_price t) := by
    unfold t1_cond
    rintro ⟨hf, -⟩
    rw [max_update_t1_hit, h1] at hf
    exact Bool.noConfusion hf
  have ht1 : t1_update t.entry_price (max_update t.entry_price t) =
      (max_update t.entry_price t, []) := by
    unfold t1_update
    rw [if_neg hnc]
  have hex : exit_check t.entry_price (max_update t.entry_price t) =
      some "SL Hit" := by
    by_cases hb : (max_update t.entry_price t).direction = "BUY"
    · rw [exit_check_buy _ _ hb, if_pos (by rw [max_update_sl_price, hsl])]
    · rw [exit_check_other _ _ hb, if_pos (by rw [max_update_sl_price, hsl])]
  unfold monitor_step
  rw [if_pos hst]
  unfold eval_trade
  norm_num
  rw [ht1]
  simp [hex]

/-- Witness for C10: the promoted sample BUY position closes at its entry
price 100 on a zero fetch. -/
theorem C10_promoted_fallback_exit_witness :
    monitor_step 0 sampleBuyHit =
      (none, [Event.exitNotify
        (max_update sampleBuyHit.entry_price sampleBuyHit) "SL Hit"
        sampleBuyHit.entry_price, Event.save]) :=
  C10_promoted_fallback_exit sampleBuyHit rfl rfl rfl

/-- C6: fail-open price handling.  Every failure mode of the price
fetch — disconnected engine, SDK exception, no successful response —
yields the sentinel 0, and a sentinel fetch makes the cycle evaluate the
position at its own entry price; the evaluation is a total function, so
no exception escapes it. -/
theorem C6_fail_open (api : PriceApi) (t : Trade) (ht : t.status = "ACTIVE") :
    (api.connected = false → get_latest_price api = 0) ∧
    (api.raises = true → get_latest_price api = 0) ∧
    (api.ticker_status = false ∧ api.ohlc_status = false →
      get_latest_price api = 0) ∧
    (get_latest_price api = 0 →
      monitor_step (get_latest_price api) t = eval_trade t.entry_price t) := by
  refine ⟨?_, ?_, ?_, ?_⟩
  · intro hc
    unfold get_latest_price
    rw [hc]
    simp
  · intro hr
    unfold get_latest_price
    rw [hr]
    split_ifs <;> simp_all
  · rintro ⟨h1, h2⟩
    unfold get_latest_price
    rw [h1, h2]
    split_ifs <;> first | rfl | simp_all
  · intro h0
    unfold monitor_step
    rw [if_pos ht, if_pos h0]

/-- Witness for C6: the disconnected API yields 0 and the sample BUY
position is evaluated at its entry price. -/
theorem C6_fail_open_witness :
    get_latest_price apiDown = 0 ∧
    monitor_step (get_latest_price apiDown) sampleBuy =
      eval_trade sampleBuy.entry_price sampleBuy := by
  have h := C6_fail_open apiDown sampleBuy rfl
  exact ⟨h.1 rfl, h.2.2.2 (h.1 rfl)⟩

/-- The target-1 notification list never contains a flush event. -/
theorem save_not_in_t1_events (ltp : ℚ) (t : Trade) :
    Event.save ∉ (t1_update ltp t).2 := by
  unfold t1_update
  split_ifs <;> simp

/-- C7 counterexample: a cycle at price 115 against the fresh sample BUY
position mutates the position in place — excursion 100 to 115, t1_hit
false to true, stop loss 80 to 100 — yet emits no flush: the only event
of the cycle is the target-1 notification, so the in-place updates are
not persisted before the next cycle. -/
theorem C7_flush_counterexample :
    (monitor_step 115 sampleBuy).1 = some sampleBuy115 ∧
    some sampleBuy115 ≠ some sampleBuy ∧
    (monitor_step 115 sampleBuy).2 =
      [Event.update "VIP Channel" "NIFTY" "Target 1 Hit! SL Moved to Cost."] ∧
    Event.save ∉ (monitor_step 115 sampleBuy).2 := by decide

/-- C7 amended: the monitor loop flushes the store only when it removes
a position — a cycle's events contain the flush exactly when the
position is deleted that cycle — while the in-place excursion, target-1
and stop-loss mutations of a surviving cycle go unflushed; creation via
`place_trade` does flush immediately whenever it creates a record. -/
theorem C7_flush_on_removal_only (f : ℚ) (t : Trade)
    (ht : t.status = "ACTIVE") :
    (Event.save ∈ (monitor_step f t).2 ↔ (monitor_step f t).1 = none) ∧
    (∀ (connected order_raises : Bool) (symbol sec_id direction : String)
        (qty : ℤ) (channel : String) (sl_points : ℚ) (mode : String)
        (fno_price eq_price : ℚ) (trade_id : String) (u : Trade),
      (place_trade connected order_raises symbol sec_id direction qty
        channel sl_points mode fno_price eq_price trade_id).created =
          some u →
      Event.save ∈ (place_trade connected order_raises symbol sec_id
        direction qty channel sl_points mode fno_price eq_price
        trade_id).events) := by
  constructor
  · unfold monitor_step
    rw [if_pos ht]
    unfold eval_trade
    rcases hex : exit_check (if f = 0 then t.entry_price else f)
        (t1_update (if f = 0 then t.entry_price else f)
          (max_update (if f = 0 then t.entry_price else f) t)).1 with _ | r <;>
      simp [hex, save_not_in_t1_events]
  · intro connected order_raises symbol sec_id direction qty channel
      sl_points mode fno_price eq_price trade_id u hc
    unfold place_trade at hc ⊢
    split_ifs at hc ⊢ <;> simp_all

/-- Witness for C7 amended: the stop-loss cycle of the promoted sample
position does flush exactly because it deletes. -/
theorem C7_flush_on_removal_only_witness :
    Event.save ∈ (monitor_step 79 sampleBuyHit).2 ↔
      (monitor_step 79 sampleBuyHit).1 = none :=
  (C7_flush_on_removal_only 79 sampleBuyHit rfl).1

/-- C8 counterexample: a creation request with risk distance 0 (and
positive quantity and a security id) is not rejected: the /trade route
reports success and creates an ACTIVE position, which the monitor loop
will evaluate. -/
theorem C8_counterexample :
    (trade_route false false "PAPER" zeroRiskForm 0 0 "NIFTY_1").msg =
      "Trade Executed Successfully" ∧
    (trade_route false false "PAPER" zeroRiskForm 0 0
      "NIFTY_1").created.map Trade.status = some "ACTIVE" ∧
    (form_qty_sl zeroRiskForm).2 ≤ 0 := by decide

/-- C8 amended: the /trade route rejects exactly the requests with a
non-positive (or unparseable) quantity or a missing/empty security id,
with the descriptive error message and no position created; the risk
distance is not validated, so any accepted request — whatever the sign
of sl — creates an ACTIVE position (absent a LIVE order exception). -/
theorem C8_validation (connected order_raises : Bool) (mode : String)
    (fm : TradeForm) (fno_price eq_price : ℚ) (trade_id : String) :
    ((form_qty_sl fm).1 ≤ 0 ∨ sec_id_truthy fm.sec_id = false →
      trade_route connected order_raises mode fm fno_price eq_price
        trade_id =
        { msg := "❌ Error: Invalid Option/Symbol or Quantity.",
          created := none, events := [] }) ∧
    (0 < (form_qty_sl fm).1 → sec_id_truthy fm.sec_id = true →
      ¬ (mode = "LIVE" ∧ connected = true ∧ order_raises = true) →
      ∃ u, (trade_route connected order_raises mode fm fno_price eq_price
        trade_id).created = some u ∧ u.status = "ACTIVE") := by
  constructor
  · intro h
    have hng : ¬ (0 < (form_qty_sl fm).1 ∧ sec_id_truthy fm.sec_id = true) := by
      rcases h with h | h
      · exact fun hc => absurd hc.1 (not_lt.mpr h)
      · exact fun hc => by rw [h] at hc; exact Bool.noConfusion hc.2
    unfold trade_route
    rw [if_neg hng]
  · intro hq hs hl
    unfold trade_route
    rw [if_pos ⟨hq, hs⟩]
    unfold place_trade
    rw [if_neg hl]
    exact ⟨_, rfl, rfl⟩

/-- Witness for C8 amended: quantity 0 is rejected with the error
message; the zero-risk request is accepted and creates an ACTIVE
position. -/
theorem C8_validation_witness :
    (trade_route false false "PAPER" zeroQtyForm 0 0 "NIFTY_1" =
      { msg := "❌ Error: Invalid Option/Symbol or Quantity.",
        created := none, events := [] }) ∧
    ∃ u, (trade_route false false "PAPER" zeroRiskForm 0 0
      "NIFTY_1").created = some u ∧ u.status = "ACTIVE" :=
  ⟨(C8_validation false false "PAPER" zeroQtyForm 0 0 "NIFTY_1").1
      (Or.inl (by decide)),
   (C8_validation false false "PAPER" zeroRiskForm 0 0 "NIFTY_1").2
      (by decide) (by decide) (by decide)⟩

end DhanAlgo
